import Mathlib

/-!
Shallow embedding of the conversion engine of `src/src/shapecad.py`:
CRS detection (`GeometryDetector.detect_australian_crs`, lines 367-467, and
`GeometryDetector.detect_shapefile_info`, lines 280-365), geometry
extraction (`GeometryExtractor.extract_from_dxf`, lines 491-682, and
`GeometryExtractor.extract_from_shp_auto_detect`, lines 684-770) and the
two conversion directions (`ConverterEngine.dxf_to_shp`, lines 775-824,
and `ConverterEngine.shp_to_dxf`, lines 826-902).

Modelling conventions:
* Machine floats are modelled by an arbitrary coordinate type `α` with
  decidable equality wherever the source only moves or compares
  coordinates, and by `ℝ` where it computes (the circle sampling of the
  `CIRCLE` branch, which the source evaluates with `math.cos`/`math.sin`
  and whose specified behaviour is stated over exact real arithmetic).
* External libraries at the call boundary are modelled by their documented
  behaviour: shapely geometries are the `Geometry` inductive, whose
  `polygon` constructor stores the explicitly closed exterior ring
  (shapely linear rings repeat the first vertex as the last coordinate);
  shapely's `Polygon.is_valid` is an uninterpreted parameter `valid`;
  ezdxf modelspace entities are the `Entity` inductive; the EPSG-registry
  acceptance check that `gpd.GeoDataFrame(geometry=..., crs=...)` performs
  through pyproj is an uninterpreted parameter `crs_ok` (an unassigned
  code raises a CRSError there, which `dxf_to_shp` re-raises); file IO
  and logging stay outside the model, except that the mixed-geometry-type
  `logging.warning` of `detect_shapefile_info` is recorded as the
  `mixed_warning` field of its result.
* Python strings are `String`; `str.upper()` is `Char.toUpper` mapped over
  the characters; the regular expression search
  `re.search(r'ZONE[_\s]*(\d{2})', s)` is the function `zoneSearch`
  (leftmost match; `\s` is modelled by the ASCII whitespace characters,
  which covers every description string considered here; since the
  separator class and the digit class are disjoint, the greedy `[_\s]*`
  needs no backtracking and `zoneSearch` drops all consecutive separators
  before demanding two digits, exactly like the regular expression).
* `zone` reaches `dxf_to_shp` as a numeral string from a fixed combo box
  and is immediately converted with `int(zone)`; it is modelled as `Nat`.
-/

/-- `Config.GDA1994_BASE_EPSG` (shapecad.py line 201). -/
def GDA1994_BASE_EPSG : Nat := 28300

/-- `Config.GDA2020_BASE_EPSG` (shapecad.py line 202). -/
def GDA2020_BASE_EPSG : Nat := 7800

/-- A geopandas CRS object as the engine observes it: the result of
`crs.to_epsg()` (`none` when the method is missing or returns `None`) and
the text `str(crs)`. -/
structure CRS where
  epsg : Option Nat
  text : String
deriving DecidableEq

/-- The `crs_info` dictionary built by `detect_australian_crs`
(shapecad.py lines 388-395). -/
structure CRSInfo where
  datum : String
  projection : String
  zone : String
  epsg_code : Option Nat
  is_australian : Bool
  crs_string : String
deriving DecidableEq

/-- Python substring containment (`needle in hay`) on character lists. -/
def containsSub (needle : List Char) : List Char → Bool
  | [] => needle.isEmpty
  | c :: cs => needle.isPrefixOf (c :: cs) || containsSub needle cs

/-- The character class `[_\s]` of the zone pattern, `\s` restricted to
ASCII whitespace. -/
def isSep (c : Char) : Bool :=
  c = '_' || c = ' ' || c = '\t' || c = '\n' || c = '\r' || c = '\x0b' || c = '\x0c'

/-- Greedy consumption of the `[_\s]*` part of the zone pattern. -/
def dropSeps : List Char → List Char
  | [] => []
  | c :: cs => if isSep c then dropSeps cs else c :: cs

/-- The `(\d{2})` part of the zone pattern: the next two characters must
both be digits; they form the captured group. -/
def twoDigits : List Char → Option (Char × Char)
  | a :: b :: _ => if a.isDigit && b.isDigit then some (a, b) else none
  | _ => none

/-- `re.search(r'ZONE[_\s]*(\d{2})', s)` (shapecad.py lines 444 and 458):
scan left to right for a position starting with `ZONE`, followed by any
run of separators and then two digits; on a failed attempt resume the
scan one character further. Returns the captured two digits. -/
def zoneSearch : List Char → Option (Char × Char)
  | [] => none
  | c :: cs =>
    if c = 'Z' ∧ cs.take 3 = ['O', 'N', 'E'] then
      match twoDigits (dropSeps (cs.drop 3)) with
      | some d => some d
      | none => zoneSearch cs
    else zoneSearch cs

/-- `str(crs).upper()` as a character list. -/
def upper (s : String) : List Char := s.toList.map Char.toUpper

/-- The EPSG-range classification of `detect_australian_crs`
(shapecad.py lines 403-428), applied to a `crs_info` record that already
carries `epsg_code`. -/
def epsgBranch (e : Nat) (info : CRSInfo) : CRSInfo :=
  if 28350 ≤ e ∧ e ≤ 28356 then
    { info with datum := "GDA1994", projection := "MGA",
                zone := Nat.repr (e - 28300), is_australian := true }
  else if 7850 ≤ e ∧ e ≤ 7856 then
    { info with datum := "GDA2020", projection := "MGA",
                zone := Nat.repr (e - 7800), is_australian := true }
  else if e = 4283 then
    { info with datum := "GDA1994", projection := "Geographic (Lat/Lon)",
                zone := "N/A", is_australian := true }
  else if e = 7844 then
    { info with datum := "GDA2020", projection := "Geographic (Lat/Lon)",
                zone := "N/A", is_australian := true }
  else info

/-- The `if 'MGA' in crs_string` part of the textual fallback
(shapecad.py lines 440-446 and 454-460): set the projection and, when the
zone pattern matches, the zone. -/
def mgaText (s : List Char) (info : CRSInfo) : CRSInfo :=
  if containsSub "MGA".toList s then
    match zoneSearch s with
    | some (a, b) => { info with projection := "MGA", zone := String.mk [a, b] }
    | none => { info with projection := "MGA" }
  else info

/-- The textual fallback of `detect_australian_crs` (shapecad.py lines
430-460): GDA1994 tokens first, then GDA2020 tokens, on the uppercased
description. -/
def textBranch (s : List Char) (info : CRSInfo) : CRSInfo :=
  if containsSub "GDA1994".toList s || containsSub "GDA94".toList s then
    mgaText s { info with datum := "GDA1994", is_australian := true }
  else if containsSub "GDA2020".toList s || containsSub "GDA20".toList s then
    mgaText s { info with datum := "GDA2020", is_australian := true }
  else info

/-- The initial `crs_info` record (shapecad.py lines 388-395). -/
def initInfo (t : String) : CRSInfo :=
  ⟨"Unknown", "Unknown", "Unknown", none, false, t⟩

/-- The `if hasattr(crs, 'to_epsg') and crs.to_epsg():` step
(shapecad.py lines 399-428): a present, truthy (non-zero) EPSG code is
recorded and classified. -/
def epsgStep : Option Nat → CRSInfo → CRSInfo
  | some e, info => if e ≠ 0 then epsgBranch e { info with epsg_code := some e } else info
  | none, info => info

/-- The `if not crs_info['is_australian']:` step (shapecad.py line 431):
the textual fallback runs only when the EPSG lookup did not match. -/
def textStep (s : List Char) (info : CRSInfo) : CRSInfo :=
  if info.is_australian then info else textBranch s info

/-- `GeometryDetector.detect_australian_crs` (shapecad.py lines 367-467).
`none` input is the `if crs is None: return None` case. -/
def detect_australian_crs (crs : Option CRS) : Option CRSInfo :=
  match crs with
  | none => none
  | some c => some (textStep (upper c.text) (epsgStep c.epsg (initInfo c.text)))

/-- The spatial-reference id computed by `ConverterEngine.dxf_to_shp`
(shapecad.py lines 801-804): `base_epsg + int(zone)` with the base chosen
by `datum == "GDA1994"` (every other datum string selects the GDA2020
base). -/
def dxf_epsg (datum : String) (zone : Nat) : Nat :=
  (if datum = "GDA1994" then GDA1994_BASE_EPSG else GDA2020_BASE_EPSG) + zone

/-- Shapely geometry objects as the engine observes them. The `polygon`
constructor stores the explicitly closed exterior ring (shapely rings
repeat the first vertex as the last); interior rings are never read by
the source (`geom.exterior.coords` only) and are not modelled. -/
inductive Geometry (α : Type) where
  | point (p : α × α)
  | multipoint (ps : List (α × α))
  | linestring (ps : List (α × α))
  | multilinestring (ls : List (List (α × α)))
  | polygon (ring : List (α × α))
  | multipolygon (rings : List (List (α × α)))
deriving DecidableEq

/-- Shapely `geom.geom_type`. -/
def Geometry.geom_type {α : Type} : Geometry α → String
  | .point _ => "Point"
  | .multipoint _ => "MultiPoint"
  | .linestring _ => "LineString"
  | .multilinestring _ => "MultiLineString"
  | .polygon _ => "Polygon"
  | .multipolygon _ => "MultiPolygon"

/-- Shapely `geom.is_empty`: the geometry has no coordinates. -/
def Geometry.is_empty {α : Type} : Geometry α → Bool
  | .point _ => false
  | .multipoint ps => ps.isEmpty
  | .linestring ps => ps.isEmpty
  | .multilinestring ls => ls.isEmpty
  | .polygon ring => ring.isEmpty
  | .multipolygon rings => rings.isEmpty

/-- ezdxf modelspace entities as the extractor observes them: the dxftype
together with the attributes the source reads. The Boolean flags are the
results of `getattr(entity, 'closed', False)` and
`getattr(entity, 'is_closed', False)`; `OTHER` covers every dxftype
without an extraction rule. -/
inductive Entity (α : Type) where
  | POINT (location : α × α)
  | LINE (s t : α × α)
  | LWPOLYLINE (closed : Bool) (points : List (α × α))
  | POLYLINE (is_closed : Bool) (vertices : List (α × α))
  | CIRCLE (center : α × α) (radius : α)
  | OTHER (dxftype : String)
deriving DecidableEq

variable {α : Type} [DecidableEq α]

/-- The close-then-validate step of the closed-polyline branches
(shapecad.py lines 597-609 and 625-637): if the first and last vertices
differ, append a copy of the first (`points.append(points[0])`, i.e.
`pts ++ pts.take 1`), build the polygon and keep it only when
`polygon.is_valid`. -/
def closeAndValidate (valid : List (α × α) → Bool) (pts : List (α × α)) :
    Option (Geometry α) :=
  let ring := if pts.head? ≠ pts.getLast? then pts ++ pts.take 1 else pts
  if valid ring then some (Geometry.polygon ring) else none

/-- The per-entity body of `GeometryExtractor.extract_from_dxf`
(shapecad.py lines 521-672): branch on the requested entity-type string,
then on the dxftype; `none` is a skipped entity. `sampler` stands for the
inline circle-approximation loop (lines 650-658, `circle_points` over the
reals); `valid` stands for shapely's `Polygon.is_valid`. -/
def extractEntity (sampler : (α × α) → α → List (α × α))
    (valid : List (α × α) → Bool) (entity_type : String) :
    Entity α → Option (Geometry α)
  | e =>
    if entity_type = "Points" then
      match e with
      | .POINT location => some (.point location)
      | _ => none
    else if entity_type = "Lines" then
      match e with
      | .LINE s t => some (.linestring [s, t])
      | .LWPOLYLINE closed pts =>
        if closed then none
        else if 2 ≤ pts.length then some (.linestring pts) else none
      | .POLYLINE is_closed vtx =>
        if is_closed then none
        else if vtx = [] then none
        else if 2 ≤ vtx.length then some (.linestring vtx) else none
      | _ => none
    else if entity_type = "Polygons/Areas" then
      match e with
      | .LWPOLYLINE closed pts =>
        if closed then
          if 3 ≤ pts.length then closeAndValidate valid pts else none
        else none
      | .POLYLINE is_closed vtx =>
        if is_closed then
          if vtx = [] then none
          else if 3 ≤ vtx.length then closeAndValidate valid vtx else none
        else none
      | .CIRCLE center radius => some (.polygon (sampler center radius))
      | _ => none
    else none

/-- `GeometryExtractor.extract_from_dxf` (shapecad.py lines 491-682): the
entities appended by the processing loop, in order. The purely diagnostic
entity-type histogram and skip counters are not modelled. -/
def extract_from_dxf (sampler : (α × α) → α → List (α × α))
    (valid : List (α × α) → Bool) (msp : List (Entity α))
    (entity_type : String) : List (Geometry α) :=
  msp.filterMap (extractEntity sampler valid entity_type)

/-- The circle approximation of the `CIRCLE` branch (shapecad.py lines
644-658) over the reals: 32 samples at angles `2 * pi * i / 32` around
the center, then the duplicate of the first sample
(`points.append(points[0])`). -/
noncomputable def circle_points (center : ℝ × ℝ) (radius : ℝ) : List (ℝ × ℝ) :=
  let pts := (List.range 32).map fun i : ℕ =>
    (center.1 + radius * Real.cos (2 * Real.pi * (i : ℝ) / 32),
     center.2 + radius * Real.sin (2 * Real.pi * (i : ℝ) / 32))
  pts ++ pts.take 1

/-- One step of Python's insertion-ordered count dictionary
(`geometry_counts[geom_type] = geometry_counts.get(geom_type, 0) + 1`,
shapecad.py line 320): increment in place, or append a new key. -/
def tallyAdd : List (String × Nat) → String → List (String × Nat)
  | [], k => [(k, 1)]
  | (k', n) :: rest, k =>
    if k' = k then (k', n + 1) :: rest else (k', n) :: tallyAdd rest k

/-- Python `max(geometry_counts, key=geometry_counts.get)` (shapecad.py
line 328) over the insertion-ordered dictionary: the first entry
attaining the maximal count (Python `max` keeps the first of several
maxima). -/
def argmaxFirst : List (String × Nat) → Option (String × Nat)
  | [] => none
  | (k, v) :: rest =>
    match argmaxFirst rest with
    | none => some (k, v)
    | some (k', v') => if v < v' then some (k', v') else some (k, v)

/-- The `geom_type`s of the non-null, non-empty members of the geometry
column, in scan order (the `if geom is not None and not geom.is_empty`
filter of shapecad.py lines 317-321 and 701-704). -/
def validTypes (rows : List (Option (Geometry α))) : List String :=
  rows.filterMap fun o =>
    match o with
    | some g => if g.is_empty then none else some g.geom_type
    | none => none

/-- The `geom_type_mapping` dictionary (shapecad.py lines 332-339). -/
def geom_type_mapping (t : String) : Option (String × String) :=
  if t = "Point" then some ("Point", "Points")
  else if t = "MultiPoint" then some ("Point", "Points")
  else if t = "LineString" then some ("LineString", "Lines")
  else if t = "MultiLineString" then some ("LineString", "Lines")
  else if t = "Polygon" then some ("Polygon", "Polygons/Areas")
  else if t = "MultiPolygon" then some ("Polygon", "Polygons/Areas")
  else none

/-- A GeoDataFrame as the engine observes it: the geometry column (null
entries possible) and the dataset CRS. -/
structure GDF (α : Type) where
  rows : List (Option (Geometry α))
  crs : Option CRS

/-- The result dictionary of `GeometryDetector.detect_shapefile_info`
(shapecad.py lines 297-303), extended with `mixed_warning`, which records
whether the mixed-geometry-types `logging.warning` of lines 350-352
fired. -/
structure ShpInfo where
  geometry_type : Option String
  readable_name : String
  feature_count : Nat
  crs_info : Option CRSInfo
  error : Option String
  mixed_warning : Bool
deriving DecidableEq

/-- `GeometryDetector.detect_shapefile_info` (shapecad.py lines 280-365):
empty frame and no-valid-geometry cases return early with an error
message; otherwise the dominant geometry type is mapped, mixed types are
reported, and the CRS is resolved. The file-reading `try/except` wrapper
is outside the model. -/
def detect_shapefile_info (gdf : GDF α) : ShpInfo :=
  if gdf.rows.isEmpty then
    { geometry_type := none, readable_name := "Unknown", feature_count := 0,
      crs_info := none, error := some "Shapefile contains no geometries",
      mixed_warning := false }
  else
    let counts := (validTypes gdf.rows).foldl tallyAdd []
    match argmaxFirst counts with
    | none =>
      { geometry_type := none, readable_name := "Unknown", feature_count := 0,
        crs_info := none,
        error := some "Shapefile contains no valid geometries",
        mixed_warning := false }
    | some (primary, pcount) =>
      match geom_type_mapping primary with
      | some (shapely_type, readable) =>
        { geometry_type := some shapely_type, readable_name := readable,
          feature_count := pcount,
          crs_info := detect_australian_crs gdf.crs, error := none,
          mixed_warning := 1 < counts.length }
      | none =>
        { geometry_type := none, readable_name := "Unknown",
          feature_count := 0, crs_info := none,
          error := some ("Unsupported geometry type: " ++ primary),
          mixed_warning := false }

/-- The per-geometry splitting of `extract_from_shp_auto_detect`
(shapecad.py lines 725-767): single-part geometries pass through,
multi-part geometries are split into their members; the polygon cases
keep only `geom.exterior.coords`. -/
def flattenGeom : Geometry α → List (Geometry α)
  | .point p => [.point p]
  | .multipoint ps => ps.map .point
  | .linestring ps => [.linestring ps]
  | .multilinestring ls => ls.map .linestring
  | .polygon ring => [.polygon ring]
  | .multipolygon rings => rings.map .polygon

/-- The detected-entity-type mapping of `extract_from_shp_auto_detect`
(shapecad.py lines 712-720). -/
def detected_label (t : String) : String :=
  if t = "Point" ∨ t = "MultiPoint" then "Points"
  else if t = "LineString" ∨ t = "MultiLineString" then "Lines"
  else if t = "Polygon" ∨ t = "MultiPolygon" then "Polygons/Areas"
  else "Unknown"

/-- `GeometryExtractor.extract_from_shp_auto_detect` (shapecad.py lines
684-770): tally the non-null, non-empty geometry types, detect the
dominant one, and flatten every non-null, non-empty geometry
independently of the detected type. -/
def extract_from_shp_auto_detect (rows : List (Option (Geometry α))) :
    List (Geometry α) × String :=
  let counts := (validTypes rows).foldl tallyAdd []
  match argmaxFirst counts with
  | none => ([], "Unknown")
  | some (primary, _) =>
    (((rows.filterMap id).filter fun g => !g.is_empty).flatMap flattenGeom,
     detected_label primary)

/-- The entity-emission loop body of `ConverterEngine.shp_to_dxf`
(shapecad.py lines 863-884): Point becomes `add_point` at `(x, y, 0)`
(the constant zero elevation is not modelled in the 2D coordinates),
LineString becomes an open `add_lwpolyline` on its coordinates, Polygon
becomes `add_lwpolyline(..., dxfattribs={'closed': True})` on
`geom.exterior.coords`; any other geometry class falls through without
incrementing `converted_count`. -/
def emitGeom : Geometry α → Option (Entity α)
  | .point p => some (.POINT p)
  | .linestring ps => some (.LWPOLYLINE false ps)
  | .polygon ring => some (.LWPOLYLINE true ring)
  | _ => none

/-- `ConverterEngine.shp_to_dxf` (shapecad.py lines 826-902): empty frame
and empty extraction fail; otherwise the flattened geometries are emitted
and a zero converted count fails; on success the emitted entities, the
converted count and the detected entity type are returned. The
`dxf_version` and `binary_dxf` arguments only affect the file encoding
and are unused in the model. -/
def shp_to_dxf (gdf : GDF α) (dxf_version : String) (binary_dxf : Bool) :
    Except String (List (Entity α) × Nat × String) :=
  if gdf.rows.isEmpty then
    Except.error "Shapefile is empty or contains no valid geometries"
  else
    let ex := extract_from_shp_auto_detect gdf.rows
    if ex.1.isEmpty then
      Except.error "No compatible geometries found in the shapefile."
    else
      let entities := ex.1.filterMap emitGeom
      if entities.length = 0 then
        Except.error "No geometries could be converted to DXF format"
      else
        Except.ok (entities, entities.length, ex.2)

/-- `ConverterEngine.dxf_to_shp` (shapecad.py lines 775-824): extract the
requested category, fail when nothing was extracted, otherwise build the
GeoDataFrame with CRS `EPSG:(base_epsg + int(zone))` and succeed with the
converted count and that spatial-reference id. `crs_ok` models the EPSG
registry lookup that `gpd.GeoDataFrame(geometry=..., crs=...)` (line 807)
performs through pyproj: an unassigned code makes it raise a CRSError,
which the `except Exception` clause of lines 822-824 logs and re-raises,
so it propagates to the caller as an error distinct from the no-geometry
error (and from any argument-validation error). The id/attribute columns
and the file write are outside the model. -/
def dxf_to_shp (sampler : (α × α) → α → List (α × α))
    (valid : List (α × α) → Bool) (crs_ok : Nat → Bool)
    (msp : List (Entity α)) (datum : String) (zone : Nat)
    (entity_type : String) : Except String (Nat × Nat) :=
  let geometries := extract_from_dxf sampler valid msp entity_type
  if geometries.isEmpty then
    Except.error ("No " ++ entity_type ++ " found in the DXF file. Please check the entity type selection or DXF content.")
  else if crs_ok (dxf_epsg datum zone) then
    Except.ok (geometries.length, dxf_epsg datum zone)
  else
    Except.error ("Invalid projection: EPSG:" ++ Nat.repr (dxf_epsg datum zone))

/-- The 7-Polygon, 3-LineString geometry column used to check the
classifier. -/
def rows73 : List (Option (Geometry ℤ)) :=
  List.replicate 7 (some (Geometry.polygon [((0:ℤ), (0:ℤ)), (4, 0), (0, 4), (0, 0)])) ++
  List.replicate 3 (some (Geometry.linestring [((0:ℤ), (0:ℤ)), (1, 1)]))

/-! ## Helper lemmas -/

/-- A spatial-reference id in the GDA1994 MGA range resolves to GDA1994
with zone `id - 28300`. -/
theorem detect_epsg_gda1994 (e : Nat) (t : String) (h1 : 28350 ≤ e) (h2 : e ≤ 28356) :
    detect_australian_crs (some ⟨some e, t⟩)
      = some ⟨"GDA1994", "MGA", Nat.repr (e - 28300), some e, true, t⟩ := by
  have he : e ≠ 0 := by omega
  simp only [detect_australian_crs, epsgStep, initInfo]
  rw [if_pos he]
  unfold epsgBranch
  rw [if_pos (show 28350 ≤ e ∧ e ≤ 28356 from ⟨h1, h2⟩)]
  rfl

/-- A spatial-reference id in the GDA2020 MGA range resolves to GDA2020
with zone `id - 7800`. -/
theorem detect_epsg_gda2020 (e : Nat) (t : String) (h1 : 7850 ≤ e) (h2 : e ≤ 7856) :
    detect_australian_crs (some ⟨some e, t⟩)
      = some ⟨"GDA2020", "MGA", Nat.repr (e - 7800), some e, true, t⟩ := by
  have he : e ≠ 0 := by omega
  simp only [detect_australian_crs, epsgStep, initInfo]
  rw [if_pos he]
  unfold epsgBranch
  rw [if_neg (show ¬(28350 ≤ e ∧ e ≤ 28356) by omega),
      if_pos (show 7850 ≤ e ∧ e ≤ 7856 from ⟨h1, h2⟩)]
  rfl

/-- The captured group of `twoDigits` consists of digit characters. -/
theorem twoDigits_digits {l : List Char} {a b : Char}
    (h : twoDigits l = some (a, b)) : a.isDigit = true ∧ b.isDigit = true := by
  match l with
  | [] => simp [twoDigits] at h
  | [x] => simp [twoDigits] at h
  | x :: y :: rest =>
    simp only [twoDigits] at h
    split at h
    · rename_i hd
      obtain ⟨rfl, rfl⟩ : x = a ∧ y = b := by
        simpa using h
      exact Bool.and_eq_true_iff.mp hd
    · simp at h

/-- The captured group of `zoneSearch` consists of digit characters. -/
theorem zoneSearch_digits {s : List Char} {a b : Char}
    (h : zoneSearch s = some (a, b)) : a.isDigit = true ∧ b.isDigit = true := by
  induction s with
  | nil => simp [zoneSearch] at h
  | cons c cs ih =>
    rw [zoneSearch] at h
    split at h
    · split at h
      · rename_i d heq
        obtain ⟨rfl⟩ : d = (a, b) := by simpa using h
        exact twoDigits_digits heq
      · exact ih h
    · exact ih h

/-! ## Claim theorems -/

/-- C8 counterexample: at datum GDA1994 and zone 99 (outside [50,56]) the
(datum, zone) resolution produces the identifier 28399 — it has no error
path and signals no ArgumentError — and the conversion hands that id to
the CRS-registry boundary unchecked: with a registry that rejects the
unassigned code 28399, the failure is the propagated CRS error, not a
zone-argument error, and with an accepting registry no error occurs at
all. -/
theorem c8_zone99_no_argument_error :
    dxf_epsg "GDA1994" 99 = 28399
    ∧ dxf_to_shp (fun _ _ => ([] : List (ℤ × ℤ))) (fun _ => true)
        (fun e => e != 28399) [Entity.POINT ((0:ℤ), 0)] "GDA1994" 99 "Points"
        = Except.error "Invalid projection: EPSG:28399"
    ∧ dxf_to_shp (fun _ _ => ([] : List (ℤ × ℤ))) (fun _ => true)
        (fun _ => true) [Entity.POINT ((0:ℤ), 0)] "GDA1994" 99 "Points"
        = Except.ok (1, 28399) :=
  ⟨rfl, rfl, rfl⟩

/-- C8 amended: the (datum, zone) to spatial-reference-id resolution
performs no zone validation and never signals ArgumentError: for every
zone above 56 it produces the identifier `base + zone`, and the
conversion's outcome is then decided solely by the CRS-registry boundary
— acceptance gives success with that id, rejection gives the propagated
CRS error; no zone-argument error exists on either path. -/
theorem c8_zone_not_validated (z : Nat) (hz : 56 < z) (d : String)
    (crs_ok : Nat → Bool) (p : ℤ × ℤ)
    (sampler : (ℤ × ℤ) → ℤ → List (ℤ × ℤ)) (valid : List (ℤ × ℤ) → Bool) :
    dxf_epsg d z = (if d = "GDA1994" then 28300 else 7800) + z
    ∧ dxf_to_shp sampler valid crs_ok [Entity.POINT p] d z "Points"
      = (if crs_ok (dxf_epsg d z)
         then Except.ok (1, dxf_epsg d z)
         else Except.error
           ("Invalid projection: EPSG:" ++ Nat.repr (dxf_epsg d z))) := by
  constructor
  · simp [dxf_epsg, GDA1994_BASE_EPSG, GDA2020_BASE_EPSG]
  · simp only [dxf_to_shp, extract_from_dxf, List.filterMap_cons,
      List.filterMap_nil]
    rfl

/-- C8 witness: the amended statement at zone 99 under a registry that
rejects the unassigned code 28399. -/
theorem c8_zone_not_validated_witness :
    56 < 99 ∧
    (dxf_epsg "GDA1994" 99 = (if "GDA1994" = "GDA1994" then 28300 else 7800) + 99
    ∧ dxf_to_shp (fun _ _ => ([] : List (ℤ × ℤ))) (fun _ => true)
        (fun e => e != 28399) [Entity.POINT ((1:ℤ), 2)] "GDA1994" 99 "Points"
      = (if (fun e => e != 28399) (dxf_epsg "GDA1994" 99)
         then Except.ok (1, dxf_epsg "GDA1994" 99)
         else Except.error
           ("Invalid projection: EPSG:" ++ Nat.repr (dxf_epsg "GDA1994" 99)))) :=
  ⟨by omega,
   c8_zone_not_validated 99 (by omega) "GDA1994" (fun e => e != 28399)
     ((1:ℤ), 2) (fun _ _ => ([] : List (ℤ × ℤ))) (fun _ => true)⟩

/-- C10: in the CAD-to-geo conversion any datum string other than exactly
"GDA1994" — misspelled or invalid included — is silently treated as
GDA2020: the spatial-reference id is `7800 + zone` with no datum
validation and no error raised by the conversion itself; whenever the
CRS-registry boundary accepts the resulting code (as it does for every
real GDA2020 MGA code 785x arising from zones 50-56) the conversion
succeeds with that id. -/
theorem c10_datum_fallback_gda2020 (d : String) (hd : d ≠ "GDA1994") (z : Nat) :
    dxf_epsg d z = 7800 + z ∧
    ∀ (crs_ok : Nat → Bool), crs_ok (7800 + z) = true →
      ∀ (sampler : (ℤ × ℤ) → ℤ → List (ℤ × ℤ)) (valid : List (ℤ × ℤ) → Bool)
        (p : ℤ × ℤ),
        dxf_to_shp sampler valid crs_ok [Entity.POINT p] d z "Points"
          = Except.ok (1, 7800 + z) := by
  have hepsg : dxf_epsg d z = 7800 + z := by
    simp [dxf_epsg, GDA2020_BASE_EPSG, if_neg hd]
  refine ⟨hepsg, fun crs_ok hok sampler valid p => ?_⟩
  simp [dxf_to_shp, extract_from_dxf, extractEntity, hepsg, hok]

/-- C10 witness: a misspelled datum string at zone 55 is treated as
GDA2020 and, with the registry accepting code 7855, the conversion
succeeds. -/
theorem c10_datum_fallback_gda2020_witness :
    "GDA994" ≠ "GDA1994" ∧ ((fun _ : Nat => true) (7800 + 55) = true)
    ∧ dxf_epsg "GDA994" 55 = 7800 + 55 ∧
    dxf_to_shp (fun _ _ => ([] : List (ℤ × ℤ))) (fun _ => true) (fun _ => true)
      [Entity.POINT ((0:ℤ), 0)] "GDA994" 55 "Points" = Except.ok (1, 7800 + 55) :=
  ⟨by decide, rfl,
   (c10_datum_fallback_gda2020 "GDA994" (by decide) 55).1,
   (c10_datum_fallback_gda2020 "GDA994" (by decide) 55).2 (fun _ => true) rfl
     (fun _ _ => ([] : List (ℤ × ℤ))) (fun _ => true) ((0:ℤ), 0)⟩

/-- C5 counterexample: exporting the polygon whose (shapely, explicitly
closed) exterior ring is [(0,0),(1,0),(0,1),(0,0)] emits a closed
lightweight polyline whose coordinate list is the full ring — which
differs from the ring with the duplicated final point omitted, so the
redundant closing vertex IS written. -/
theorem c5_closing_vertex_written :
    shp_to_dxf (⟨[some (Geometry.polygon [((0:ℤ), (0:ℤ)), (1, 0), (0, 1), (0, 0)])],
        none⟩ : GDF ℤ) "R2010" false
      = Except.ok ([Entity.LWPOLYLINE true [((0:ℤ), (0:ℤ)), (1, 0), (0, 1), (0, 0)]],
          1, "Polygons/Areas")
    ∧ [((0:ℤ), (0:ℤ)), (1, 0), (0, 1), (0, 0)]
        ≠ [((0:ℤ), (0:ℤ)), (1, 0), (0, 1)] :=
  ⟨rfl, by decide⟩

/-- C5 amended: when the geo-to-CAD export emits an Area (Polygon), the
lightweight-polyline entity is flagged closed and its coordinate list is
the exterior ring verbatim, including the duplicated final point (no
vertex is omitted). -/
theorem c5_polygon_emitted_verbatim {α : Type} [DecidableEq α]
    (ring : List (α × α)) (hne : ring ≠ []) (c : Option CRS) (v : String)
    (b : Bool) :
    shp_to_dxf (⟨[some (Geometry.polygon ring)], c⟩ : GDF α) v b
      = Except.ok ([Entity.LWPOLYLINE true ring], 1, "Polygons/Areas") := by
  obtain ⟨p, rest, rfl⟩ : ∃ p rest, ring = p :: rest := by
    cases ring with
    | nil => exact absurd rfl hne
    | cons p rest => exact ⟨p, rest, rfl⟩
  rfl

/-- C5 witness: the amended statement at a concrete square ring. -/
theorem c5_polygon_emitted_verbatim_witness :
    ([((0:ℤ), (0:ℤ)), (2, 0), (2, 2), (0, 2), (0, 0)] : List (ℤ × ℤ)) ≠ [] ∧
    shp_to_dxf (⟨[some (Geometry.polygon
        [((0:ℤ), (0:ℤ)), (2, 0), (2, 2), (0, 2), (0, 0)])], none⟩ : GDF ℤ)
        "R2018" true
      = Except.ok ([Entity.LWPOLYLINE true
          [((0:ℤ), (0:ℤ)), (2, 0), (2, 2), (0, 2), (0, 0)]], 1, "Polygons/Areas") :=
  ⟨by decide,
   c5_polygon_emitted_verbatim [((0:ℤ), (0:ℤ)), (2, 0), (2, 2), (0, 2), (0, 0)]
     (by decide) none "R2018" true⟩

/-- C2: a conversion that would produce zero output geometries is always
a typed error, never a success with count 0: a successful CAD-to-geo
result has a positive count and an empty extraction yields the
no-matching-geometry error; a successful geo-to-CAD result has a positive
count, an empty flattened list yields an error, and an empty dataset
yields an error. -/
theorem c2_zero_result_is_error :
    (∀ (α : Type) [DecidableEq α] (sampler : (α × α) → α → List (α × α))
        (valid : List (α × α) → Bool) (crs_ok : Nat → Bool)
        (msp : List (Entity α)) (d : String)
        (z : Nat) (et : String) (cnt epsg : Nat),
        dxf_to_shp sampler valid crs_ok msp d z et = Except.ok (cnt, epsg) →
        0 < cnt)
  ∧ (∀ (α : Type) [DecidableEq α] (sampler : (α × α) → α → List (α × α))
        (valid : List (α × α) → Bool) (crs_ok : Nat → Bool)
        (msp : List (Entity α)) (d : String) (z : Nat) (et : String),
        extract_from_dxf sampler valid msp et = [] →
        dxf_to_shp sampler valid crs_ok msp d z et = Except.error
          ("No " ++ et ++ " found in the DXF file. Please check the entity type selection or DXF content."))
  ∧ (∀ (α : Type) [DecidableEq α] (gdf : GDF α) (v : String) (b : Bool)
        (out : List (Entity α)) (cnt : Nat) (det : String),
        shp_to_dxf gdf v b = Except.ok (out, cnt, det) → 0 < cnt)
  ∧ (∀ (α : Type) [DecidableEq α] (gdf : GDF α) (v : String) (b : Bool),
        gdf.rows ≠ [] → (extract_from_shp_auto_detect gdf.rows).1 = [] →
        shp_to_dxf gdf v b = Except.error "No compatible geometries found in the shapefile.")
  ∧ (∀ (α : Type) [DecidableEq α] (c : Option CRS) (v : String) (b : Bool),
        shp_to_dxf (⟨[], c⟩ : GDF α) v b
          = Except.error "Shapefile is empty or contains no valid geometries") := by
  refine ⟨?_, ?_, ?_, ?_, ?_⟩
  · intro α _ sampler valid crs_ok msp d z et cnt epsg h
    simp only [dxf_to_shp] at h
    split at h
    · simp at h
    · rename_i hni
      split at h
      · simp only [Except.ok.injEq, Prod.mk.injEq] at h
        obtain ⟨hcnt, -⟩ := h
        have hnil : extract_from_dxf sampler valid msp et ≠ [] := by
          intro hn
          rw [hn] at hni
          simp at hni
        have := List.length_pos.mpr hnil
        omega
      · simp at h
  · intro α _ sampler valid crs_ok msp d z et hnil
    simp [dxf_to_shp, hnil]
  · intro α _ gdf v b out cnt det h
    simp only [shp_to_dxf] at h
    split at h
    · simp at h
    · split at h
      · simp at h
      · split at h
        · simp at h
        · rename_i hlen
          simp only [Except.ok.injEq, Prod.mk.injEq] at h
          obtain ⟨-, hcnt, -⟩ := h
          omega
  · intro α _ gdf v b hrows hext
    have h1 : gdf.rows.isEmpty = false := by
      cases hr : gdf.rows with
      | nil => exact absurd hr hrows
      | cons a l => simp [hr]
    simp [shp_to_dxf, h1, hext]
  · intro α _ c v b
    rfl

/-- C2 witness: the first conjunct at a concrete one-point document. -/
theorem c2_zero_result_is_error_witness :
    dxf_to_shp (fun _ _ => ([] : List (ℤ × ℤ))) (fun _ => true) (fun _ => true)
      [Entity.POINT ((0:ℤ), 0)] "GDA1994" 55 "Points" = Except.ok (1, 28355)
    ∧ 0 < 1 :=
  ⟨rfl,
   c2_zero_result_is_error.1 ℤ (fun _ _ => ([] : List (ℤ × ℤ))) (fun _ => true)
     (fun _ => true) [Entity.POINT ((0:ℤ), 0)] "GDA1994" 55 "Points" 1 28355 rfl⟩

/-- C7: over 7 Polygon and 3 LineString geometries the classifier
returns the dominant Areas category with feature count 7 and the mixed
(diversity) warning fires; the auto-detecting exporter detects the same
category; an empty collection, and one whose members are all null or
empty, return the empty-geometry error with no category. -/
theorem c7_classifier_cases :
    detect_shapefile_info (⟨rows73, none⟩ : GDF ℤ)
      = { geometry_type := some "Polygon", readable_name := "Polygons/Areas",
          feature_count := 7, crs_info := none, error := none,
          mixed_warning := true }
  ∧ (extract_from_shp_auto_detect rows73).2 = "Polygons/Areas"
  ∧ (∀ c : Option CRS, detect_shapefile_info (⟨[], c⟩ : GDF ℤ)
      = { geometry_type := none, readable_name := "Unknown", feature_count := 0,
          crs_info := none, error := some "Shapefile contains no geometries",
          mixed_warning := false })
  ∧ (∀ c : Option CRS,
      detect_shapefile_info (⟨[none, some (Geometry.multipoint ([] : List (ℤ × ℤ))),
          some (Geometry.linestring ([] : List (ℤ × ℤ)))], c⟩ : GDF ℤ)
      = { geometry_type := none, readable_name := "Unknown", feature_count := 0,
          crs_info := none, error := some "Shapefile contains no valid geometries",
          mixed_warning := false }) :=
  ⟨rfl, rfl, fun _ => rfl, fun _ => rfl⟩

/-- C4: for lightweight and legacy polylines: an open 2-point polyline
extracted under Lines becomes a Line; a closed 2-point polyline under
Areas is skipped (3-point minimum), never emitted as a degenerate Area;
and for a closed polyline with at least 3 points whose first and last
vertices differ, the closing copy of the first point is appended before
the validity check is applied to the closed ring. -/
theorem c4_polyline_extraction_rules {α : Type} [DecidableEq α]
    (sampler : (α × α) → α → List (α × α)) (valid : List (α × α) → Bool)
    (p q : α × α) :
    extract_from_dxf sampler valid [Entity.LWPOLYLINE false [p, q]] "Lines"
      = [Geometry.linestring [p, q]]
  ∧ extract_from_dxf sampler valid [Entity.POLYLINE false [p, q]] "Lines"
      = [Geometry.linestring [p, q]]
  ∧ extract_from_dxf sampler valid [Entity.LWPOLYLINE true [p, q]] "Polygons/Areas"
      = []
  ∧ extract_from_dxf sampler valid [Entity.POLYLINE true [p, q]] "Polygons/Areas"
      = []
  ∧ (∀ pts : List (α × α), 3 ≤ pts.length → pts.head? ≠ pts.getLast? →
      extract_from_dxf sampler valid [Entity.LWPOLYLINE true pts] "Polygons/Areas"
        = if valid (pts ++ pts.take 1)
          then [Geometry.polygon (pts ++ pts.take 1)] else [])
  ∧ (∀ pts : List (α × α), 3 ≤ pts.length → pts.head? ≠ pts.getLast? →
      extract_from_dxf sampler valid [Entity.POLYLINE true pts] "Polygons/Areas"
        = if valid (pts ++ pts.take 1)
          then [Geometry.polygon (pts ++ pts.take 1)] else []) := by
  have hclose : ∀ pts : List (α × α), pts.head? ≠ pts.getLast? →
      closeAndValidate valid pts
        = if valid (pts ++ pts.take 1)
          then some (Geometry.polygon (pts ++ pts.take 1)) else none := by
    intro pts hne
    simp only [closeAndValidate]
    rw [if_pos hne]
  have hsingle : ∀ (e : Entity α) (et : String),
      extract_from_dxf sampler valid [e] et
        = (extractEntity sampler valid et e).toList := by
    intro e et
    simp only [extract_from_dxf, List.filterMap_cons, List.filterMap_nil]
    cases extractEntity sampler valid et e <;> rfl
  have hlw : ∀ pts : List (α × α), 3 ≤ pts.length →
      extractEntity sampler valid "Polygons/Areas" (Entity.LWPOLYLINE true pts)
        = closeAndValidate valid pts := by
    intro pts h3
    simp only [extractEntity]
    rw [if_neg (by decide : ¬("Polygons/Areas" = "Points")),
        if_neg (by decide : ¬("Polygons/Areas" = "Lines"))]
    simp [h3]
  have hpl : ∀ pts : List (α × α), 3 ≤ pts.length →
      extractEntity sampler valid "Polygons/Areas" (Entity.POLYLINE true pts)
        = closeAndValidate valid pts := by
    intro pts h3
    have hnil : ¬(pts = []) := by
      intro hn
      rw [hn] at h3
      simp at h3
    simp only [extractEntity]
    rw [if_neg (by decide : ¬("Polygons/Areas" = "Points")),
        if_neg (by decide : ¬("Polygons/Areas" = "Lines"))]
    simp [h3, hnil]
  refine ⟨rfl, rfl, rfl, rfl, ?_, ?_⟩
  · intro pts h3 hne
    rw [hsingle, hlw pts h3, hclose pts hne]
    cases hv : valid (pts ++ pts.take 1) <;> simp [hv]
  · intro pts h3 hne
    rw [hsingle, hpl pts h3, hclose pts hne]
    cases hv : valid (pts ++ pts.take 1) <;> simp [hv]

/-- C4 witness: the fifth conjunct at a concrete open triangle. -/
theorem c4_polyline_extraction_rules_witness :
    (3 ≤ ([((0:ℤ), (0:ℤ)), (4, 0), (0, 4)] : List (ℤ × ℤ)).length
      ∧ ([((0:ℤ), (0:ℤ)), (4, 0), (0, 4)] : List (ℤ × ℤ)).head?
          ≠ ([((0:ℤ), (0:ℤ)), (4, 0), (0, 4)] : List (ℤ × ℤ)).getLast?)
  ∧ extract_from_dxf (fun _ _ => ([] : List (ℤ × ℤ))) (fun _ => true)
      [Entity.LWPOLYLINE true [((0:ℤ), (0:ℤ)), (4, 0), (0, 4)]] "Polygons/Areas"
      = if (fun _ => true) (([((0:ℤ), (0:ℤ)), (4, 0), (0, 4)] : List (ℤ × ℤ))
            ++ ([((0:ℤ), (0:ℤ)), (4, 0), (0, 4)] : List (ℤ × ℤ)).take 1)
        then [Geometry.polygon (([((0:ℤ), (0:ℤ)), (4, 0), (0, 4)] : List (ℤ × ℤ))
            ++ ([((0:ℤ), (0:ℤ)), (4, 0), (0, 4)] : List (ℤ × ℤ)).take 1)]
        else [] :=
  ⟨⟨by decide, by decide⟩,
   (c4_polyline_extraction_rules (fun _ _ => ([] : List (ℤ × ℤ))) (fun _ => true)
       ((0:ℤ), (0:ℤ)) ((1:ℤ), (1:ℤ))).2.2.2.2.1
     [((0:ℤ), (0:ℤ)), (4, 0), (0, 4)] (by decide) (by decide)⟩

/-- C1: for every supported datum and zone in [50,56], the
spatial-reference id computed as the CAD-to-geo conversion does
(28300 + zone for GDA1994, 7800 + zone for every other datum, in
particular GDA2020) resolves back through the CRS detector to the
original datum and zone with the supported-region flag true. -/
theorem c1_crs_roundtrip (d : String) (z : Nat) (t : String)
    (hd : d = "GDA1994" ∨ d = "GDA2020") (h1 : 50 ≤ z) (h2 : z ≤ 56) :
    (detect_australian_crs (some ⟨some (dxf_epsg d z), t⟩)).map
        (fun i => (i.datum, i.zone, i.is_australian))
      = some (d, Nat.repr z, true) := by
  rcases hd with rfl | rfl
  · have he : dxf_epsg "GDA1994" z = 28300 + z := by
      simp [dxf_epsg, GDA1994_BASE_EPSG]
    rw [he, detect_epsg_gda1994 (28300 + z) t (by omega) (by omega)]
    simp [Nat.add_sub_cancel_left]
  · have he : dxf_epsg "GDA2020" z = 7800 + z := by
      simp [dxf_epsg, GDA2020_BASE_EPSG]
    rw [he, detect_epsg_gda2020 (7800 + z) t (by omega) (by omega)]
    simp [Nat.add_sub_cancel_left]

/-- C1 witness: the round trip at GDA2020 zone 52. -/
theorem c1_crs_roundtrip_witness :
    ("GDA2020" = "GDA1994" ∨ "GDA2020" = "GDA2020") ∧ 50 ≤ 52 ∧ 52 ≤ 56 ∧
    (detect_australian_crs (some ⟨some (dxf_epsg "GDA2020" 52), ""⟩)).map
        (fun i => (i.datum, i.zone, i.is_australian))
      = some ("GDA2020", Nat.repr 52, true) :=
  ⟨Or.inr rfl, by omega, by omega,
   c1_crs_roundtrip "GDA2020" 52 "" (Or.inr rfl) (by omega) (by omega)⟩

/-- C6: the CRS resolver maps 28355 to GDA1994/MGA/zone 55/supported,
7856 to GDA2020/MGA/zone 56/supported, 4283 to GDA1994/Geographic with
no MGA zone, and any id outside the two MGA ranges and the two
geographic ids whose description matches none of the Australian datum
tokens resolves to supported-region false. -/
theorem c6_resolver_cases :
    (∀ t : String, (detect_australian_crs (some ⟨some 28355, t⟩)).map
        (fun i => (i.datum, i.projection, i.zone, i.is_australian))
      = some ("GDA1994", "MGA", "55", true))
  ∧ (∀ t : String, (detect_australian_crs (some ⟨some 7856, t⟩)).map
        (fun i => (i.datum, i.projection, i.zone, i.is_australian))
      = some ("GDA2020", "MGA", "56", true))
  ∧ (∀ t : String, (detect_australian_crs (some ⟨some 4283, t⟩)).map
        (fun i => (i.datum, i.projection, i.zone, i.is_australian))
      = some ("GDA1994", "Geographic (Lat/Lon)", "N/A", true))
  ∧ (∀ (e : Nat) (t : String),
      ¬(28350 ≤ e ∧ e ≤ 28356) → ¬(7850 ≤ e ∧ e ≤ 7856) →
      e ≠ 4283 → e ≠ 7844 →
      containsSub "GDA1994".toList (upper t) = false →
      containsSub "GDA94".toList (upper t) = false →
      containsSub "GDA2020".toList (upper t) = false →
      containsSub "GDA20".toList (upper t) = false →
      (detect_australian_crs (some ⟨some e, t⟩)).map CRSInfo.is_australian
        = some false) := by
  refine ⟨?_, ?_, ?_, ?_⟩
  · intro t
    rw [detect_epsg_gda1994 28355 t (by omega) (by omega)]
    rfl
  · intro t
    rw [detect_epsg_gda2020 7856 t (by omega) (by omega)]
    rfl
  · intro t
    have he : (4283 : Nat) ≠ 0 := by omega
    simp only [detect_australian_crs, epsgStep, initInfo]
    rw [if_pos he]
    unfold epsgBranch
    rw [if_neg (show ¬(28350 ≤ 4283 ∧ 4283 ≤ 28356) by omega),
        if_neg (show ¬(7850 ≤ 4283 ∧ 4283 ≤ 7856) by omega),
        if_pos (rfl : (4283 : Nat) = 4283)]
    rfl
  · intro e t hr1 hr2 h43 h78 hg1 hg2 hg3 hg4
    simp only [String.toList] at hg1 hg2 hg3 hg4
    by_cases he : e = 0
    · subst he
      simp [detect_australian_crs, epsgStep, textStep, textBranch, initInfo,
        hg1, hg2, hg3, hg4]
    · simp only [detect_australian_crs, epsgStep, initInfo]
      rw [if_pos he]
      rw [show epsgBranch e
            { datum := "Unknown", projection := "Unknown", zone := "Unknown",
              epsg_code := some e, is_australian := false, crs_string := t }
          = { datum := "Unknown", projection := "Unknown", zone := "Unknown",
              epsg_code := some e, is_australian := false, crs_string := t } from by
        unfold epsgBranch
        rw [if_neg hr1, if_neg hr2, if_neg h43, if_neg h78]]
      simp [textStep, textBranch, hg1, hg2, hg3, hg4]

/-- C6 witness: the fourth conjunct at the non-Australian id 32755 with a
UTM description. -/
theorem c6_resolver_cases_witness :
    (¬(28350 ≤ 32755 ∧ 32755 ≤ 28356) ∧ ¬(7850 ≤ 32755 ∧ 32755 ≤ 7856)
      ∧ (32755 : Nat) ≠ 4283 ∧ (32755 : Nat) ≠ 7844
      ∧ containsSub "GDA1994".toList (upper "WGS 84 / UTM zone 55S") = false
      ∧ containsSub "GDA94".toList (upper "WGS 84 / UTM zone 55S") = false
      ∧ containsSub "GDA2020".toList (upper "WGS 84 / UTM zone 55S") = false
      ∧ containsSub "GDA20".toList (upper "WGS 84 / UTM zone 55S") = false)
  ∧ (detect_australian_crs (some ⟨some 32755, "WGS 84 / UTM zone 55S"⟩)).map
      CRSInfo.is_australian = some false :=
  ⟨⟨by omega, by omega, by omega, by omega, by decide, by decide, by decide,
    by decide⟩,
   c6_resolver_cases.2.2.2 32755 "WGS 84 / UTM zone 55S" (by omega) (by omega)
     (by omega) (by omega) (by decide) (by decide) (by decide) (by decide)⟩

/-- C9 counterexample: the textual fallback on "GDA94 MGA ZONE_99" (no
numeric id) yields a descriptor carrying zone "99" — outside [50,56] —
with the supported-region flag true, so resolution can produce a
descriptor whose zone is out of the supported range. -/
theorem c9_textual_zone_out_of_range :
    (detect_australian_crs (some ⟨none, "GDA94 MGA ZONE_99"⟩)).map
        (fun i => (i.zone, i.is_australian)) = some ("99", true)
    ∧ ("99" ∈ ["50", "51", "52", "53", "54", "55", "56"]) = False := by
  constructor
  · rfl
  · simp

/-- C9 amended: a descriptor whose zone was set by the identifier branch
(spatial-reference id in one of the two MGA ranges) always has a zone in
[50,56]; the textual-fallback zone extraction guarantees only that the
zone is a string of two digit characters, which may denote a value
outside [50,56] while the supported-region flag is true. -/
theorem c9_zone_range_by_branch :
    (∀ (e : Nat) (t : String),
      (28350 ≤ e ∧ e ≤ 28356) ∨ (7850 ≤ e ∧ e ≤ 7856) →
      ∃ z : Nat, 50 ≤ z ∧ z ≤ 56 ∧
        (detect_australian_crs (some ⟨some e, t⟩)).map CRSInfo.zone
          = some (Nat.repr z))
  ∧ (∀ (t : String) (i : CRSInfo),
      detect_australian_crs (some ⟨none, t⟩) = some i → i.zone ≠ "Unknown" →
      ∃ a b : Char, a.isDigit = true ∧ b.isDigit = true
        ∧ i.zone = String.mk [a, b]) := by
  constructor
  · intro e t hr
    rcases hr with ⟨h1, h2⟩ | ⟨h1, h2⟩
    · refine ⟨e - 28300, by omega, by omega, ?_⟩
      rw [detect_epsg_gda1994 e t h1 h2]
      rfl
    · refine ⟨e - 7800, by omega, by omega, ?_⟩
      rw [detect_epsg_gda2020 e t h1 h2]
      rfl
  · intro t i hdet
    simp only [detect_australian_crs, epsgStep, textStep, initInfo,
      Option.some.injEq] at hdet
    rw [if_neg (by simp : ¬(false = true))] at hdet
    subst hdet
    simp only [textBranch, mgaText]
    split
    · split
      · split
        · rename_i a b heq
          intro _
          exact ⟨a, b, (zoneSearch_digits heq).1, (zoneSearch_digits heq).2, rfl⟩
        · intro hzone
          exact absurd rfl hzone
      · intro hzone
        exact absurd rfl hzone
    · split
      · split
        · split
          · rename_i a b heq
            intro _
            exact ⟨a, b, (zoneSearch_digits heq).1, (zoneSearch_digits heq).2, rfl⟩
          · intro hzone
            exact absurd rfl hzone
        · intro hzone
          exact absurd rfl hzone
      · intro hzone
        exact absurd rfl hzone

/-- C9 witness: the identifier-branch conjunct at 28355. -/
theorem c9_zone_range_by_branch_witness :
    ((28350 ≤ 28355 ∧ 28355 ≤ 28356) ∨ (7850 ≤ 28355 ∧ 28355 ≤ 7856))
  ∧ ∃ z : Nat, 50 ≤ z ∧ z ≤ 56 ∧
      (detect_australian_crs (some ⟨some 28355, "EPSG:28355"⟩)).map CRSInfo.zone
        = some (Nat.repr z) :=
  ⟨Or.inl ⟨by omega, by omega⟩,
   c9_zone_range_by_branch.1 28355 "EPSG:28355" (Or.inl ⟨by omega, by omega⟩)⟩

/-- Helper: in a list of length 32 extended by the copy of its own first
element, position 32 holds the same entry as position 0. -/
theorem append_take_one_getElem (L : List (ℝ × ℝ)) (h : L.length = 32) :
    (L ++ L.take 1)[32]? = (L ++ L.take 1)[0]? := by
  have h0 : 0 < L.length := by omega
  rw [List.getElem?_append_right (by omega), List.getElem?_append_left h0]
  simp [List.getElem?_take, h]

/-- C3: a circle entity with center (0,0) and radius 10 extracted under
the Areas category produces the sampled ring of exactly 33 points: point
i (for i < 32) is `(10*cos(2*pi*i/32), 10*sin(2*pi*i/32))`, the last
point duplicates the first sampled point, and every point of the ring
lies at distance exactly 10 from the origin over real arithmetic. -/
theorem c3_circle_area_ring :
    (∀ valid : List (ℝ × ℝ) → Bool,
      extract_from_dxf circle_points valid [Entity.CIRCLE ((0:ℝ), (0:ℝ)) 10]
          "Polygons/Areas"
        = [Geometry.polygon (circle_points ((0:ℝ), (0:ℝ)) 10)])
  ∧ (circle_points ((0:ℝ), (0:ℝ)) 10).length = 33
  ∧ (∀ i : Fin 32, (circle_points ((0:ℝ), (0:ℝ)) 10)[(i : ℕ)]?
      = some (10 * Real.cos (2 * Real.pi * (i : ℕ) / 32),
              10 * Real.sin (2 * Real.pi * (i : ℕ) / 32)))
  ∧ (circle_points ((0:ℝ), (0:ℝ)) 10)[32]?
      = (circle_points ((0:ℝ), (0:ℝ)) 10)[0]?
  ∧ (circle_points ((0:ℝ), (0:ℝ)) 10).Forall
      (fun p => Real.sqrt (p.1 ^ 2 + p.2 ^ 2) = 10) := by
  refine ⟨fun valid => rfl, ?_, ?_, ?_, ?_⟩
  · simp [circle_points]
  · intro i
    have hi : (i : ℕ) < 32 := i.isLt
    simp only [circle_points]
    rw [List.getElem?_append_left (by simp)]
    simp [List.getElem?_range, hi]
  · simp only [circle_points]
    exact append_take_one_getElem _ (by simp)
  · rw [List.forall_iff_forall_mem]
    intro p hp
    simp only [circle_points, List.mem_append] at hp
    have hp' : p ∈ (List.range 32).map (fun i =>
        ((0:ℝ) + 10 * Real.cos (2 * Real.pi * i / 32),
         (0:ℝ) + 10 * Real.sin (2 * Real.pi * i / 32))) := by
      rcases hp with h | h
      · exact h
      · exact List.take_subset 1 _ h
    obtain ⟨i, -, rfl⟩ := List.mem_map.mp hp'
    have key : ((0:ℝ) + 10 * Real.cos (2 * Real.pi * i / 32)) ^ 2
        + ((0:ℝ) + 10 * Real.sin (2 * Real.pi * i / 32)) ^ 2 = 10 ^ 2 := by
      have h := Real.sin_sq_add_cos_sq (2 * Real.pi * i / 32)
      nlinarith [h]
    show Real.sqrt (((0:ℝ) + 10 * Real.cos (2 * Real.pi * i / 32)) ^ 2
        + ((0:ℝ) + 10 * Real.sin (2 * Real.pi * i / 32)) ^ 2) = 10
    rw [key, Real.sqrt_sq (by norm_num : (0:ℝ) ≤ 10)]
